import Mathlib

/-!
Verification of the podmon repository's state-diff / notification-dispatch
specification against the source.

The repository's browser-side code (`src/app/static/js/script.js`,
`src/app/script.js`, `src/app/static/js/main.js`, `src/unnamed/part_000`,
`src/unnamed/part_002`) is embedded directly.  The backend monitoring core
(diff engine, notification dispatcher) is not present in the repository
sources; where a claim is decided by that missing core it is modelled from
the specification text, as marked in the doc comments below.
-/

namespace Podmon

/-! ## Identities and ordering

Pod identity is the pair (namespace, name) per the spec's data model
(`identity = (namespace, name)`).  `namespace` is a Lean keyword, so the
field is called `ns`. -/

structure PodId where
  ns : String
  name : String
deriving DecidableEq, Repr

/-- Lexicographic order on pod identities: by namespace, then by name.
Used as the deterministic "sorted by identity" order of the diff engine. -/
def idLe (a b : PodId) : Prop :=
  a.ns < b.ns ∨ (a.ns = b.ns ∧ a.name ≤ b.name)

instance : DecidableRel idLe := fun a b =>
  inferInstanceAs (Decidable (a.ns < b.ns ∨ (a.ns = b.ns ∧ a.name ≤ b.name)))

instance : IsTotal PodId idLe where
  total a b := by
    rcases lt_trichotomy a.ns b.ns with h | h | h
    · exact Or.inl (Or.inl h)
    · rcases le_total a.name b.name with h' | h'
      · exact Or.inl (Or.inr ⟨h, h'⟩)
      · exact Or.inr (Or.inr ⟨h.symm, h'⟩)
    · exact Or.inr (Or.inl h)

instance : IsTrans PodId idLe where
  trans a b c hab hbc := by
    rcases hab with hab | ⟨hab1, hab2⟩
    · rcases hbc with hbc | ⟨hbc1, _⟩
      · exact Or.inl (lt_trans hab hbc)
      · exact Or.inl (hbc1 ▸ hab)
    · rcases hbc with hbc | ⟨hbc1, hbc2⟩
      · exact Or.inl (hab1 ▸ hbc)
      · exact Or.inr ⟨hab1.trans hbc1, le_trans hab2 hbc2⟩

/-! ## Snapshots -/

/-- Modelled from the spec: per-pod observed attributes compared by the diff
engine — `status` and the container `image` reference (the other PodSnapshot
attributes do not participate in change detection). -/
structure PodState where
  status : String
  image : String
deriving DecidableEq, Repr

/-- A snapshot is a mapping from identity to observed state, represented as
an association list (a mapping is well-formed when its keys are nodup). -/
abbrev Snapshot := List (PodId × PodState)

/-- The identities present in a snapshot. -/
def keys (m : Snapshot) : List PodId := m.map Prod.fst

/-- Look an identity up in a snapshot. -/
def lookupId (k : PodId) : Snapshot → Option PodState
  | [] => none
  | (a, v) :: t => if k = a then some v else lookupId k t

/-- Presence test for an identity in a snapshot. -/
def hasKey (m : Snapshot) (k : PodId) : Bool := (lookupId k m).isSome

/-! ## Change events -/

/-- Modelled from the spec: the event kinds produced by the diff engine for
pods (`PodAdded`, `PodRemoved`, `StatusChanged`, `ImageChanged`). -/
inductive EventKind
  | podAdded
  | podRemoved
  | statusChanged
  | imageChanged
deriving DecidableEq, Repr

/-- Modelled from the spec: a ChangeEvent carries kind, subject identity and
the old/new values of the compared field (absent on the side where the pod
does not exist). -/
structure ChangeEvent where
  kind : EventKind
  subject : PodId
  oldValue : Option String
  newValue : Option String
deriving DecidableEq, Repr

/-- Sort identities by the deterministic identity order. -/
def sortIds (l : List PodId) : List PodId := List.insertionSort idLe l

/-- Modelled from the spec: the diff engine is absent from `src/` (only the
browser UI is in the repository); §4.1 — for each identity present in
`current` but not `previous`, emit `PodAdded`, sorted by identity. -/
def additions (P C : Snapshot) : List ChangeEvent :=
  (sortIds ((keys C).filter (fun k => !(hasKey P k)))).map
    (fun k => { kind := .podAdded, subject := k,
                oldValue := none,
                newValue := (lookupId k C).map PodState.status })

/-- Modelled from the spec: §4.1 — for each identity present in `previous`
but not `current`, emit `PodRemoved`, sorted by identity. -/
def removals (P C : Snapshot) : List ChangeEvent :=
  (sortIds ((keys P).filter (fun k => !(hasKey C k)))).map
    (fun k => { kind := .podRemoved, subject := k,
                oldValue := (lookupId k P).map PodState.status,
                newValue := none })

/-- Modelled from the spec: §4.1 — for each identity present in both, emit
`StatusChanged` with old/new values when the status fields differ, sorted by
identity. -/
def statusChanges (P C : Snapshot) : List ChangeEvent :=
  (sortIds ((keys C).filter (fun k =>
      match lookupId k P, lookupId k C with
      | some p, some c => p.status != c.status
      | _, _ => false))).map
    (fun k => { kind := .statusChanged, subject := k,
                oldValue := (lookupId k P).map PodState.status,
                newValue := (lookupId k C).map PodState.status })

/-- Modelled from the spec: §4.1 — for each identity present in both, emit
`ImageChanged` with old/new values when the image fields differ, sorted by
identity. -/
def imageChanges (P C : Snapshot) : List ChangeEvent :=
  (sortIds ((keys C).filter (fun k =>
      match lookupId k P, lookupId k C with
      | some p, some c => p.image != c.image
      | _, _ => false))).map
    (fun k => { kind := .imageChanged, subject := k,
                oldValue := (lookupId k P).map PodState.image,
                newValue := (lookupId k C).map PodState.image })

/-- Modelled from the spec: the diff engine's contract
`computeChanges(previous, current)` (§4.1); the emitted sequence is the
stable order additions, then removals, then status changes, then image
changes. -/
def computeChanges (P C : Snapshot) : List ChangeEvent :=
  additions P C ++ removals P C ++ statusChanges P C ++ imageChanges P C

/-- Number of events of kind `kd` about identity `id` in an event list. -/
def countKind (evs : List ChangeEvent) (kd : EventKind) (i : PodId) : Nat :=
  evs.countP (fun e => decide (e.kind = kd ∧ e.subject = i))

/-! ## Diff-engine lemmas -/

theorem lookupId_isSome_of_mem_keys {k : PodId} {m : Snapshot}
    (h : k ∈ keys m) : (lookupId k m).isSome = true := by
  induction m with
  | nil => simp [keys] at h
  | cons a t ih =>
    obtain ⟨x, v⟩ := a
    rcases List.mem_cons.mp h with h' | h'
    · simp only [keys, List.map_cons] at h'
      simp [lookupId, h']
    · by_cases hk : k = x
      · simp [lookupId, hk]
      · simpa [lookupId, hk] using ih h'

theorem mem_keys_of_lookupId_isSome {k : PodId} {m : Snapshot}
    (h : (lookupId k m).isSome = true) : k ∈ keys m := by
  induction m with
  | nil => simp [lookupId] at h
  | cons a t ih =>
    obtain ⟨x, v⟩ := a
    by_cases hk : k = x
    · simp [keys, hk]
    · simp only [lookupId, if_neg hk] at h
      simpa [keys] using Or.inr (ih h)

theorem hasKey_iff_mem_keys {m : Snapshot} {k : PodId} :
    hasKey m k = true ↔ k ∈ keys m :=
  ⟨fun h => mem_keys_of_lookupId_isSome h, fun h => lookupId_isSome_of_mem_keys h⟩

theorem kind_of_mem_additions {P C : Snapshot} {e : ChangeEvent}
    (h : e ∈ additions P C) : e.kind = .podAdded := by
  obtain ⟨k, _, rfl⟩ := List.mem_map.mp h
  rfl

theorem kind_of_mem_removals {P C : Snapshot} {e : ChangeEvent}
    (h : e ∈ removals P C) : e.kind = .podRemoved := by
  obtain ⟨k, _, rfl⟩ := List.mem_map.mp h
  rfl

theorem kind_of_mem_statusChanges {P C : Snapshot} {e : ChangeEvent}
    (h : e ∈ statusChanges P C) : e.kind = .statusChanged := by
  obtain ⟨k, _, rfl⟩ := List.mem_map.mp h
  rfl

theorem kind_of_mem_imageChanges {P C : Snapshot} {e : ChangeEvent}
    (h : e ∈ imageChanges P C) : e.kind = .imageChanged := by
  obtain ⟨k, _, rfl⟩ := List.mem_map.mp h
  rfl

theorem countKind_eq_zero_of_kind_ne {evs : List ChangeEvent} {kd : EventKind}
    (i : PodId) (h : ∀ e ∈ evs, e.kind ≠ kd) : countKind evs kd i = 0 := by
  unfold countKind
  rw [List.countP_eq_zero]
  intro e he
  simp only [decide_eq_true_eq, not_and]
  intro hk
  exact absurd hk (h e he)

theorem countP_decide_eq_count (i : PodId) (l : List PodId) :
    l.countP (fun k => decide (k = i)) = l.count i := by
  induction l with
  | nil => rfl
  | cons a t ih =>
    by_cases h : a = i <;>
      simp [List.countP_cons, List.count_cons, ih, h]

theorem count_sortIds (i : PodId) (l : List PodId) :
    (sortIds l).count i = l.count i :=
  (List.perm_insertionSort idLe l).count_eq i

/-- Count of a key in a filtered nodup key list, as an if-then-else. -/
theorem count_filter_keys {p : PodId → Bool} {l : List PodId}
    (hl : l.Nodup) (i : PodId) :
    (l.filter p).count i = if i ∈ l ∧ p i = true then 1 else 0 := by
  by_cases hp : p i = true
  · rw [List.count_filter hp]
    rw [List.count_eq_of_nodup hl]
    by_cases hm : i ∈ l <;> simp [hm, hp]
  · have : i ∉ l.filter p := by
      intro hmem
      exact hp (List.mem_filter.mp hmem).2
    rw [List.count_eq_zero_of_not_mem this]
    simp [hp]

theorem countKind_additions (P C : Snapshot) (i : PodId)
    (hC : (keys C).Nodup) :
    countKind (additions P C) .podAdded i =
      if i ∈ keys C ∧ i ∉ keys P then 1 else 0 := by
  unfold countKind additions
  rw [List.countP_map]
  have hfun : ((fun e : ChangeEvent => decide (e.kind = .podAdded ∧ e.subject = i)) ∘
      (fun k => ({ kind := .podAdded, subject := k, oldValue := none,
                   newValue := (lookupId k C).map PodState.status } : ChangeEvent))) =
      fun k => decide (k = i) := by
    funext k
    by_cases h : k = i <;> simp [Function.comp, h]
  rw [hfun, countP_decide_eq_count, count_sortIds,
    count_filter_keys hC i]
  by_cases hm : i ∈ keys C <;> by_cases hp : i ∈ keys P <;>
    simp [hm, hp, hasKey_iff_mem_keys]

theorem countKind_removals (P C : Snapshot) (i : PodId)
    (hP : (keys P).Nodup) :
    countKind (removals P C) .podRemoved i =
      if i ∈ keys P ∧ i ∉ keys C then 1 else 0 := by
  unfold countKind removals
  rw [List.countP_map]
  have hfun : ((fun e : ChangeEvent => decide (e.kind = .podRemoved ∧ e.subject = i)) ∘
      (fun k => ({ kind := .podRemoved, subject := k,
                   oldValue := (lookupId k P).map PodState.status,
                   newValue := none } : ChangeEvent))) =
      fun k => decide (k = i) := by
    funext k
    by_cases h : k = i <;> simp [Function.comp, h]
  rw [hfun, countP_decide_eq_count, count_sortIds,
    count_filter_keys hP i]
  by_cases hm : i ∈ keys P <;> by_cases hp : i ∈ keys C <;>
    simp [hm, hp, hasKey_iff_mem_keys]

/-- **C1.** For every pair of snapshot mappings (P, C) with well-formed
(duplicate-free) key sets, `computeChanges` emits exactly one `PodAdded`
event per identity present in C but not in P, exactly one `PodRemoved`
event per identity present in P but not in C, and no addition or removal
events for identities present in both. -/
theorem computeChanges_additions_removals_exact (P C : Snapshot) (i : PodId)
    (hP : (keys P).Nodup) (hC : (keys C).Nodup) :
    countKind (computeChanges P C) .podAdded i =
        (if i ∈ keys C ∧ i ∉ keys P then 1 else 0) ∧
    countKind (computeChanges P C) .podRemoved i =
        (if i ∈ keys P ∧ i ∉ keys C then 1 else 0) ∧
    (i ∈ keys P → i ∈ keys C →
      countKind (computeChanges P C) .podAdded i = 0 ∧
      countKind (computeChanges P C) .podRemoved i = 0) := by
  have hadd : countKind (computeChanges P C) .podAdded i =
      countKind (additions P C) .podAdded i := by
    have h1 : countKind (removals P C) .podAdded i = 0 :=
      countKind_eq_zero_of_kind_ne i
        (fun e he => by rw [kind_of_mem_removals he]; decide)
    have h2 : countKind (statusChanges P C) .podAdded i = 0 :=
      countKind_eq_zero_of_kind_ne i
        (fun e he => by rw [kind_of_mem_statusChanges he]; decide)
    have h3 : countKind (imageChanges P C) .podAdded i = 0 :=
      countKind_eq_zero_of_kind_ne i
        (fun e he => by rw [kind_of_mem_imageChanges he]; decide)
    unfold computeChanges countKind at *
    simp only [List.countP_append]
    omega
  have hrem : countKind (computeChanges P C) .podRemoved i =
      countKind (removals P C) .podRemoved i := by
    have h1 : countKind (additions P C) .podRemoved i = 0 :=
      countKind_eq_zero_of_kind_ne i
        (fun e he => by rw [kind_of_mem_additions he]; decide)
    have h2 : countKind (statusChanges P C) .podRemoved i = 0 :=
      countKind_eq_zero_of_kind_ne i
        (fun e he => by rw [kind_of_mem_statusChanges he]; decide)
    have h3 : countKind (imageChanges P C) .podRemoved i = 0 :=
      countKind_eq_zero_of_kind_ne i
        (fun e he => by rw [kind_of_mem_imageChanges he]; decide)
    unfold computeChanges countKind at *
    simp only [List.countP_append]
    omega
  refine ⟨?_, ?_, ?_⟩
  · rw [hadd, countKind_additions P C i hC]
  · rw [hrem, countKind_removals P C i hP]
  · intro hiP hiC
    constructor
    · rw [hadd, countKind_additions P C i hC]
      simp [hiP]
    · rw [hrem, countKind_removals P C i hP]
      simp [hiC]

/-- Witness for C1 at Scenario 1 of the spec: P = {}, C = {(ns1, pod1)}. -/
theorem computeChanges_additions_removals_exact_witness :
    (keys ([] : Snapshot)).Nodup ∧
    (keys [(⟨"ns1", "pod1"⟩, ⟨"Running", "v1"⟩)]).Nodup ∧
    (countKind (computeChanges [] [(⟨"ns1", "pod1"⟩, ⟨"Running", "v1"⟩)])
        .podAdded ⟨"ns1", "pod1"⟩ =
      (if (⟨"ns1", "pod1"⟩ : PodId) ∈ keys [(⟨"ns1", "pod1"⟩, ⟨"Running", "v1"⟩)] ∧
          (⟨"ns1", "pod1"⟩ : PodId) ∉ keys ([] : Snapshot) then 1 else 0) ∧
     countKind (computeChanges [] [(⟨"ns1", "pod1"⟩, ⟨"Running", "v1"⟩)])
        .podRemoved ⟨"ns1", "pod1"⟩ =
      (if (⟨"ns1", "pod1"⟩ : PodId) ∈ keys ([] : Snapshot) ∧
          (⟨"ns1", "pod1"⟩ : PodId) ∉ keys [(⟨"ns1", "pod1"⟩, ⟨"Running", "v1"⟩)] then 1 else 0) ∧
     ((⟨"ns1", "pod1"⟩ : PodId) ∈ keys ([] : Snapshot) →
      (⟨"ns1", "pod1"⟩ : PodId) ∈ keys [(⟨"ns1", "pod1"⟩, ⟨"Running", "v1"⟩)] →
      countKind (computeChanges [] [(⟨"ns1", "pod1"⟩, ⟨"Running", "v1"⟩)])
          .podAdded ⟨"ns1", "pod1"⟩ = 0 ∧
      countKind (computeChanges [] [(⟨"ns1", "pod1"⟩, ⟨"Running", "v1"⟩)])
          .podRemoved ⟨"ns1", "pod1"⟩ = 0)) :=
  ⟨by decide, by decide,
    computeChanges_additions_removals_exact [] [(⟨"ns1", "pod1"⟩, ⟨"Running", "v1"⟩)]
      ⟨"ns1", "pod1"⟩ (by decide) (by decide)⟩

theorem additions_self (S : Snapshot) : additions S S = [] := by
  unfold additions
  have h : (keys S).filter (fun k => !(hasKey S k)) = [] := by
    rw [List.filter_eq_nil_iff]
    intro k hk
    simp [hasKey, lookupId_isSome_of_mem_keys hk]
  rw [h]
  rfl

theorem removals_self (S : Snapshot) : removals S S = [] := by
  unfold removals
  have h : (keys S).filter (fun k => !(hasKey S k)) = [] := by
    rw [List.filter_eq_nil_iff]
    intro k hk
    simp [hasKey, lookupId_isSome_of_mem_keys hk]
  rw [h]
  rfl

theorem statusChanges_self (S : Snapshot) : statusChanges S S = [] := by
  unfold statusChanges
  have h : (keys S).filter (fun k =>
      match lookupId k S, lookupId k S with
      | some p, some c => p.status != c.status
      | _, _ => false) = [] := by
    rw [List.filter_eq_nil_iff]
    intro k _
    cases h : lookupId k S <;> simp [h]
  rw [h]
  rfl

theorem imageChanges_self (S : Snapshot) : imageChanges S S = [] := by
  unfold imageChanges
  have h : (keys S).filter (fun k =>
      match lookupId k S, lookupId k S with
      | some p, some c => p.image != c.image
      | _, _ => false) = [] := by
    rw [List.filter_eq_nil_iff]
    intro k _
    cases h : lookupId k S <;> simp [h]
  rw [h]
  rfl

/-- **C3.** Idempotence: diffing any snapshot against itself yields the
empty sequence of change events. -/
theorem computeChanges_self (S : Snapshot) : computeChanges S S = [] := by
  unfold computeChanges
  rw [additions_self, removals_self, statusChanges_self, imageChanges_self]
  rfl

theorem subjects_additions_sorted (P C : Snapshot) :
    List.Sorted idLe ((additions P C).map ChangeEvent.subject) := by
  unfold additions
  rw [List.map_map]
  have h : (ChangeEvent.subject ∘ fun k =>
      ({ kind := .podAdded, subject := k, oldValue := none,
         newValue := (lookupId k C).map PodState.status } : ChangeEvent)) = id := by
    funext k
    rfl
  rw [h, List.map_id]
  exact List.sorted_insertionSort idLe _

theorem subjects_removals_sorted (P C : Snapshot) :
    List.Sorted idLe ((removals P C).map ChangeEvent.subject) := by
  unfold removals
  rw [List.map_map]
  have h : (ChangeEvent.subject ∘ fun k =>
      ({ kind := .podRemoved, subject := k,
         oldValue := (lookupId k P).map PodState.status,
         newValue := none } : ChangeEvent)) = id := by
    funext k
    rfl
  rw [h, List.map_id]
  exact List.sorted_insertionSort idLe _

theorem subjects_statusChanges_sorted (P C : Snapshot) :
    List.Sorted idLe ((statusChanges P C).map ChangeEvent.subject) := by
  unfold statusChanges
  rw [List.map_map]
  have h : (ChangeEvent.subject ∘ fun k =>
      ({ kind := .statusChanged, subject := k,
         oldValue := (lookupId k P).map PodState.status,
         newValue := (lookupId k C).map PodState.status } : ChangeEvent)) = id := by
    funext k
    rfl
  rw [h, List.map_id]
  exact List.sorted_insertionSort idLe _

theorem subjects_imageChanges_sorted (P C : Snapshot) :
    List.Sorted idLe ((imageChanges P C).map ChangeEvent.subject) := by
  unfold imageChanges
  rw [List.map_map]
  have h : (ChangeEvent.subject ∘ fun k =>
      ({ kind := .imageChanged, subject := k,
         oldValue := (lookupId k P).map PodState.image,
         newValue := (lookupId k C).map PodState.image } : ChangeEvent)) = id := by
    funext k
    rfl
  rw [h, List.map_id]
  exact List.sorted_insertionSort idLe _

/-- **C4.** The sequence returned by `computeChanges` is grouped as all
addition events, then all removal events, then all status-change events,
then all image-change events, and within each group the events are sorted
by subject identity. -/
theorem computeChanges_ordered (P C : Snapshot) :
    computeChanges P C =
      additions P C ++ removals P C ++ statusChanges P C ++ imageChanges P C ∧
    (∀ e ∈ additions P C, e.kind = .podAdded) ∧
    (∀ e ∈ removals P C, e.kind = .podRemoved) ∧
    (∀ e ∈ statusChanges P C, e.kind = .statusChanged) ∧
    (∀ e ∈ imageChanges P C, e.kind = .imageChanged) ∧
    List.Sorted idLe ((additions P C).map ChangeEvent.subject) ∧
    List.Sorted idLe ((removals P C).map ChangeEvent.subject) ∧
    List.Sorted idLe ((statusChanges P C).map ChangeEvent.subject) ∧
    List.Sorted idLe ((imageChanges P C).map ChangeEvent.subject) :=
  ⟨rfl,
    fun _ he => kind_of_mem_additions he,
    fun _ he => kind_of_mem_removals he,
    fun _ he => kind_of_mem_statusChanges he,
    fun _ he => kind_of_mem_imageChanges he,
    subjects_additions_sorted P C,
    subjects_removals_sorted P C,
    subjects_statusChanges_sorted P C,
    subjects_imageChanges_sorted P C⟩

/-! ## Notification dispatcher (spec-modelled) -/

/-- The three notification channels of the system (email, WhatsApp, SMS). -/
inductive Channel
  | email
  | whatsapp
  | sms
deriving DecidableEq, Repr

/-- Modelled from the spec: per-channel configuration — an enabled flag and
an optional schedule; `none` means no schedule configured (always-on),
`some b` records whether the configured schedule currently permits
sending. -/
structure ChannelConfig where
  enabled : Bool
  schedule : Option Bool
deriving DecidableEq, Repr

/-- A channel may send when it has no schedule or its schedule currently
permits sending. -/
def schedulePermits (cfg : ChannelConfig) : Bool := cfg.schedule.getD true

/-- Modelled from the spec: the outcome of one channel's delivery attempt,
`DispatchResult{success, reason}`. -/
structure DispatchResult where
  channel : Channel
  success : Bool
  reason : Option String
deriving DecidableEq, Repr

/-- The fixed set of channels consulted by the dispatcher. -/
def channelList : List Channel := [.email, .whatsapp, .sms]

/-- Whether a transport call succeeded. -/
def transportOk : Except String Unit → Bool
  | .ok _ => true
  | .error _ => false

/-- Modelled from the spec: the notification dispatcher is absent from
`src/` (only the browser UI is in the repository); §4.2 —
`dispatch(events, config)`: for each enabled channel whose schedule
currently permits sending, attempt delivery through that channel's
transport; a transport error is recorded as a failed `DispatchResult`
rather than raised, so channels are isolated failure domains. -/
def dispatch (events : List ChangeEvent) (config : Channel → ChannelConfig)
    (transport : Channel → List ChangeEvent → Except String Unit) :
    List DispatchResult :=
  channelList.filterMap fun ch =>
    if (config ch).enabled && schedulePermits (config ch) then
      some (match transport ch events with
        | .ok _ => { channel := ch, success := true, reason := none }
        | .error r => { channel := ch, success := false, reason := some r })
    else none

theorem mem_channelList (ch : Channel) : ch ∈ channelList := by
  cases ch <;> simp [channelList]

theorem dispatch_attempt_mem (events : List ChangeEvent)
    (config : Channel → ChannelConfig)
    (transport : Channel → List ChangeEvent → Except String Unit)
    (ch : Channel) (he : (config ch).enabled = true)
    (hs : schedulePermits (config ch) = true) :
    (match transport ch events with
      | .ok _ => ({ channel := ch, success := true, reason := none } : DispatchResult)
      | .error r => { channel := ch, success := false, reason := some r }) ∈
      dispatch events config transport := by
  unfold dispatch
  rw [List.mem_filterMap]
  exact ⟨ch, mem_channelList ch, by rw [if_pos (by rw [he, hs]; rfl)]⟩

/-- **C5.** Failure isolation of the dispatcher: if channel A's transport
call fails, every other enabled and schedule-permitted channel B still
receives its own delivery attempt for the same events (its result reflects
only its own transport outcome), and A's failure — when A was attempted at
all — is recorded in A's `DispatchResult` rather than raised. -/
theorem dispatch_isolated (events : List ChangeEvent)
    (config : Channel → ChannelConfig)
    (transport : Channel → List ChangeEvent → Except String Unit)
    (chA chB : Channel) (rA : String)
    (hA : transport chA events = .error rA)
    (hBe : (config chB).enabled = true)
    (hBs : schedulePermits (config chB) = true) :
    (∃ res ∈ dispatch events config transport,
        res.channel = chB ∧ res.success = transportOk (transport chB events)) ∧
    ((config chA).enabled = true → schedulePermits (config chA) = true →
      ∃ res ∈ dispatch events config transport,
        res.channel = chA ∧ res.success = false ∧ res.reason = some rA) := by
  constructor
  · refine ⟨_, dispatch_attempt_mem events config transport chB hBe hBs, ?_⟩
    cases h : transport chB events <;> simp [h, transportOk]
  · intro hAe hAs
    refine ⟨_, dispatch_attempt_mem events config transport chA hAe hAs, ?_⟩
    simp [hA]

/-- Witness for C5: email's transport fails while WhatsApp's succeeds;
WhatsApp still gets its attempt and email's failure is recorded. -/
theorem dispatch_isolated_witness :
    ((fun ch (_ : List ChangeEvent) =>
        match ch with
        | Channel.email => (Except.error "smtp down" : Except String Unit)
        | _ => Except.ok ()) Channel.email [] = .error "smtp down") ∧
    ((fun _ => ({ enabled := true, schedule := none } : ChannelConfig))
        Channel.whatsapp).enabled = true ∧
    schedulePermits ((fun _ => ({ enabled := true, schedule := none } : ChannelConfig))
        Channel.whatsapp) = true ∧
    ((∃ res ∈ dispatch [] (fun _ => ({ enabled := true, schedule := none } : ChannelConfig))
          (fun ch _ =>
            match ch with
            | Channel.email => (Except.error "smtp down" : Except String Unit)
            | _ => Except.ok ()),
        res.channel = Channel.whatsapp ∧
        res.success = transportOk ((fun ch (_ : List ChangeEvent) =>
            match ch with
            | Channel.email => (Except.error "smtp down" : Except String Unit)
            | _ => Except.ok ()) Channel.whatsapp [])) ∧
      (((fun _ => ({ enabled := true, schedule := none } : ChannelConfig))
          Channel.email).enabled = true →
        schedulePermits ((fun _ => ({ enabled := true, schedule := none } : ChannelConfig))
          Channel.email) = true →
        ∃ res ∈ dispatch [] (fun _ => ({ enabled := true, schedule := none } : ChannelConfig))
            (fun ch _ =>
              match ch with
              | Channel.email => (Except.error "smtp down" : Except String Unit)
              | _ => Except.ok ()),
          res.channel = Channel.email ∧ res.success = false ∧
          res.reason = some "smtp down")) :=
  ⟨rfl, rfl, rfl,
    dispatch_isolated [] (fun _ => { enabled := true, schedule := none })
      (fun ch _ =>
        match ch with
        | Channel.email => (Except.error "smtp down" : Except String Unit)
        | _ => Except.ok ())
      Channel.email Channel.whatsapp "smtp down" rfl rfl rfl⟩

/-! ## Browser dashboard embedding (`src/app/static/js/script.js`) -/

/-- The pod record fields consulted by the embedded dashboard functions
(`applyFilters`, `updateCounters`, `loadDashboardData`); `created_at` is
milliseconds since the epoch.  `namespace` is a Lean keyword, so the field
is called `ns`. -/
structure Pod where
  name : String
  ns : String
  node : String
  status : String
  image : String
  image_updated : Bool
  created_at : Int
deriving DecidableEq, Repr

/-- The node record field consulted by `updateCounters`. -/
structure NodeState where
  status : String
deriving DecidableEq, Repr

/-- A `showNotification(message, type)` call recorded as data; the source's
`type` argument is the field `kind`. -/
structure Notification where
  message : String
  kind : String
deriving DecidableEq, Repr

/-- The `dashboardData` cache of script.js: pods, nodes, metrics, history
and settings (objects are modelled as key-indexed association lists). -/
structure DashboardData where
  pods : List Pod
  nodes : List (String × NodeState)
  metrics : List (String × String)
  history : List (String × List String)
  settings : List (String × String)
deriving DecidableEq, Repr

/-- `api.getPods` (script.js lines 97–107): on any fetch error the error is
caught, a "Failed to fetch pods data" error notification is shown, and an
empty list is returned instead of the error propagating. -/
def apiGetPods (response : Except String (List Pod)) :
    List Pod × List Notification :=
  match response with
  | .ok pods => (pods, [])
  | .error _ => ([], [{ message := "Failed to fetch pods data", kind := "error" }])

/-- `api.getNodes` (script.js lines 109–119): same catch-and-default shape
as `api.getPods`, returning `[]` on error. -/
def apiGetNodes (response : Except String (List (String × NodeState))) :
    List (String × NodeState) × List Notification :=
  match response with
  | .ok nodes => (nodes, [])
  | .error _ => ([], [{ message := "Failed to fetch nodes data", kind := "error" }])

/-- `api.getHistory` (script.js lines 133–143): returns `{}` on error. -/
def apiGetHistory (response : Except String (List (String × List String))) :
    List (String × List String) × List Notification :=
  match response with
  | .ok history => (history, [])
  | .error _ => ([], [{ message := "Failed to fetch history data", kind := "error" }])

/-- `loadDashboardData` (script.js lines 2309–2333): fetches pods, nodes and
history through the `api` helpers and replaces those three fields of
`dashboardData` with whatever the helpers returned, keeping the remaining
fields; each fetch argument is the outcome of the underlying network call.
Because the `api` helpers catch their own errors, the function's own catch
branch is unreachable for fetch failures. -/
def loadDashboardData (prev : DashboardData)
    (podsResp : Except String (List Pod))
    (nodesResp : Except String (List (String × NodeState)))
    (histResp : Except String (List (String × List String))) :
    DashboardData × List Notification :=
  let p := apiGetPods podsResp
  let n := apiGetNodes nodesResp
  let h := apiGetHistory histResp
  ({ prev with pods := p.1, nodes := n.1, history := h.1 },
   p.2 ++ n.2 ++ h.2)

/-- **C2 (counterexample).** At a concrete stored dashboard state with one
pod and a timed-out pod fetch, it is not the case that the previously
stored pod data is retained and that no notification is emitted: the cycle
is not skipped — the stored pod list is replaced by `[]` and an error
notification is shown. -/
theorem loadDashboardData_fetch_failure_cex :
    ¬ ((loadDashboardData
          { pods := [{ name := "pod1", ns := "ns1", node := "n1",
                       status := "Running", image := "v1",
                       image_updated := false, created_at := 0 }],
            nodes := [], metrics := [], history := [], settings := [] }
          (.error "timeout") (.ok []) (.ok [])).1.pods =
        [{ name := "pod1", ns := "ns1", node := "n1",
           status := "Running", image := "v1",
           image_updated := false, created_at := 0 }] ∧
       (loadDashboardData
          { pods := [{ name := "pod1", ns := "ns1", node := "n1",
                       status := "Running", image := "v1",
                       image_updated := false, created_at := 0 }],
            nodes := [], metrics := [], history := [], settings := [] }
          (.error "timeout") (.ok []) (.ok [])).2 = []) := by
  decide

/-- **C2 (amended).** When the pod fetch fails, `api.getPods` catches the
error and returns an empty list, so the cycle is not skipped:
`loadDashboardData` replaces the stored pod list with `[]` (the previous
pod data is not retained), keeps only the fields it does not refetch
(metrics, settings), and a "Failed to fetch pods data" error notification
is emitted. -/
theorem loadDashboardData_fetch_failure (prev : DashboardData)
    (nodesResp : Except String (List (String × NodeState)))
    (histResp : Except String (List (String × List String))) (e : String) :
    (loadDashboardData prev (.error e) nodesResp histResp).1.pods = [] ∧
    (loadDashboardData prev (.error e) nodesResp histResp).1.metrics = prev.metrics ∧
    (loadDashboardData prev (.error e) nodesResp histResp).1.settings = prev.settings ∧
    ({ message := "Failed to fetch pods data", kind := "error" } : Notification) ∈
      (loadDashboardData prev (.error e) nodesResp histResp).2 := by
  refine ⟨rfl, rfl, rfl, ?_⟩
  simp [loadDashboardData, apiGetPods]

/-! ## Refresh interval definitions (C6) -/

/-- `config.refreshInterval` in `src/app/static/js/script.js` line 11, in
milliseconds ("10 minutos em milissegundos"). -/
def scriptJsRefreshInterval : Nat := 600000

/-- `refreshInterval` in `src/app/script.js` line 23, in milliseconds
("10 minutes"). -/
def appScriptJsRefreshInterval : Nat := 600000

/-- `state.refreshInterval` in `src/app/static/js/main.js` line 30, in
milliseconds ("10 minutos"). -/
def mainJsRefreshInterval : Nat := 600000

/-- `state.refreshInterval` in `src/unnamed/part_002` line 36, in
milliseconds ("10 minutos"). -/
def part002RefreshInterval : Nat := 600000

/-- The interval passed to `setInterval(refreshDashboard, 60000)` in
`src/unnamed/part_000` line 31 ("Atualizar dados a cada 60 segundos"), in
milliseconds. -/
def part000RefreshIntervalMs : Nat := 60000

/-- Every place in the source where the periodic refresh interval is
defined. -/
def refreshIntervalDefinitions : List Nat :=
  [scriptJsRefreshInterval, appScriptJsRefreshInterval, mainJsRefreshInterval,
   part002RefreshInterval, part000RefreshIntervalMs]

/-- **C6 (counterexample).** Not every place that defines the periodic
refresh interval uses 600000 ms: `src/unnamed/part_000` schedules the
refresh at 60000 ms. -/
theorem refreshInterval_not_uniform :
    ¬ (∀ v ∈ refreshIntervalDefinitions, v = 600000) := by
  decide

/-- **C6 (amended).** The refresh interval defaults to 600000 ms (10
minutes) in script.js, app/script.js, main.js and part_002, while
part_000 schedules its refresh at 60000 ms (1 minute). -/
theorem refreshInterval_values :
    scriptJsRefreshInterval = 600000 ∧
    appScriptJsRefreshInterval = 600000 ∧
    mainJsRefreshInterval = 600000 ∧
    part002RefreshInterval = 600000 ∧
    part000RefreshIntervalMs = 60000 := by
  decide

/-! ## Recipient validators and recipient-list construction (C7, C8) -/

/-- A character matched by the regex class `[^\s@]`. -/
def emailAtomChar (c : Char) : Bool := !c.isWhitespace && c != '@'

/-- JS `String.prototype.split` with a single-character separator, over the
character list (structural, so it evaluates in the kernel). -/
def splitOnChar (sep : Char) : List Char → List (List Char)
  | [] => [[]]
  | c :: t =>
      match splitOnChar sep t with
      | [] => if c = sep then [[], []] else [[c]]
      | h :: r => if c = sep then [] :: h :: r else (c :: h) :: r

/-- JS `String.prototype.split(sep)` for a one-character separator. -/
def jsSplit (s : String) (sep : Char) : List String :=
  (splitOnChar sep s.data).map String.mk

/-- JS `String.prototype.trim`: strip leading and trailing whitespace. -/
def jsTrim (s : String) : String :=
  String.mk (((s.data.dropWhile Char.isWhitespace).reverse.dropWhile
    Char.isWhitespace).reverse)

/-- `validateEmail` (script.js lines 1751–1754), the regex
`/^[^\s@]+@[^\s@]+\.[^\s@]+$/`: exactly one `@`; a nonempty local part and
a nonempty domain of non-whitespace characters; the domain contains a `.`
with nonempty text on both sides. -/
def validateEmail (email : String) : Bool :=
  match jsSplit email '@' with
  | [localPart, domainPart] =>
      localPart != "" && localPart.data.all emailAtomChar &&
      domainPart != "" && domainPart.data.all emailAtomChar &&
      ((domainPart.data.drop 1).dropLast).contains '.'
  | _ => false

/-- `validatePhone` (script.js lines 1756–1759), the regex `/^\+\d{8,}$/`:
a leading `+` followed by at least 8 digits. -/
def validatePhone (phone : String) : Bool :=
  phone.data.head? == some '+' &&
  phone.data.tail.all Char.isDigit &&
  decide (8 ≤ phone.data.tail.length)

/-- `validatePhoneNumber` (script.js lines 2302–2305), the regex
`/^\+\d{1,3}\d{6,14}$/`: a leading `+`, then 1–3 digits, then 6–14
digits (the digit run splits as some `a + b` with `1 ≤ a ≤ 3` and
`6 ≤ b ≤ 14`). -/
def validatePhoneNumber (phone : String) : Bool :=
  phone.data.head? == some '+' &&
  phone.data.tail.all Char.isDigit &&
  ((List.range 4).any fun a => decide (1 ≤ a) &&
    ((List.range 15).any fun b => decide (6 ≤ b) &&
      decide (phone.data.tail.length = a + b)))

/-- Whether a string is a `+` followed only by digits (the common shape of
the two phone regexes). -/
def isPlusDigits (s : String) : Bool :=
  s.data.head? == some '+' && s.data.tail.all Char.isDigit

/-- The number of characters after the leading character. -/
def numDigits (s : String) : Nat := s.data.tail.length

/-- `saveConfig`'s recipient-list construction (`src/unnamed/part_000`
lines 185 and 191): the comma-separated form value is split, each entry
trimmed, and empty entries dropped — no per-channel validation. -/
def saveConfigRecipients (raw : String) : List String :=
  ((jsSplit raw ',').map jsTrim).filter (fun s => s != "")

/-- The keydown handler installed by `setupTagInput` (script.js lines
1697–1721): the trimmed input is ignored when empty, rejected with an
"Invalid value" notification when a validator is present and fails, and
appended to the tag list otherwise. -/
def tagInputKeydown (validator : Option (String → Bool))
    (tags : List String) (rawInput : String) :
    List String × List Notification :=
  let value := jsTrim rawInput
  if value == "" then (tags, [])
  else
    match validator with
    | some f =>
        if !(f value) then
          (tags, [{ message := "Invalid value: " ++ value, kind := "error" }])
        else (tags ++ [value], [])
    | none => (tags ++ [value], [])

/-- **C7 (counterexample).** `saveConfig` accepts the string
`"not-an-email"` into the stored email recipient list even though the
email validator rejects it: recipients saved through that path are not
validated against the channel's format. -/
theorem saveConfig_recipients_unvalidated :
    ¬ (∀ s ∈ saveConfigRecipients "not-an-email", validateEmail s = true) := by
  decide

/-- **C7 (amended).** Recipients entered through the dashboard tag inputs
are validated: `tagInputKeydown` with a validator only ever appends strings
the validator accepts.  Recipients stored through `saveConfig` in
`src/unnamed/part_000` are only trimmed and filtered for non-emptiness, so
the only guarantee on that stored list is that entries are nonempty. -/
theorem recipient_validation_amended (f : String → Bool)
    (tags : List String) (rawInput raw : String) :
    (∀ x ∈ (tagInputKeydown (some f) tags rawInput).1, x ∈ tags ∨ f x = true) ∧
    (∀ s ∈ saveConfigRecipients raw, s ≠ "") := by
  constructor
  · intro x hx
    unfold tagInputKeydown at hx
    by_cases hv : (jsTrim rawInput == "") = true
    · rw [if_pos hv] at hx
      exact Or.inl hx
    · rw [if_neg hv] at hx
      have hx' : x ∈ (if (!f (jsTrim rawInput)) = true then
          (tags, [({ message := "Invalid value: " ++ jsTrim rawInput,
                     kind := "error" } : Notification)])
        else (tags ++ [jsTrim rawInput], ([] : List Notification))).1 := hx
      by_cases hf : f (jsTrim rawInput) = true
      · rw [if_neg (by simp [hf])] at hx'
        rcases List.mem_append.mp hx' with h | h
        · exact Or.inl h
        · have h' := List.mem_singleton.mp h
          exact Or.inr (h' ▸ hf)
      · have hf0 : f (jsTrim rawInput) = false := by
          revert hf
          cases f (jsTrim rawInput) <;> simp
        rw [if_pos (by simp [hf0])] at hx'
        exact Or.inl hx'
  · intro s hs h0
    subst h0
    have := (List.mem_filter.mp hs).2
    simp at this

/-- **C8 (counterexample).** The two phone validators differ: the string
`"+1234567"` (a `+` followed by 7 digits) is accepted by
`validatePhoneNumber` but rejected by `validatePhone`. -/
theorem phone_validators_differ :
    validatePhoneNumber "+1234567" = true ∧ validatePhone "+1234567" = false := by
  decide

theorem phoneNumber_range_eq (n : Nat) :
    ((List.range 4).any fun a => decide (1 ≤ a) &&
      ((List.range 15).any fun b => decide (6 ≤ b) && decide (n = a + b))) =
    decide (7 ≤ n ∧ n ≤ 17) := by
  by_cases h : 7 ≤ n ∧ n ≤ 17
  · rw [decide_eq_true h, List.any_eq_true]
    by_cases h15 : n ≤ 15
    · refine ⟨1, by simp, ?_⟩
      simp only [decide_eq_true (by omega : 1 ≤ 1), Bool.true_and,
        List.any_eq_true]
      exact ⟨n - 1, by simp [List.mem_range]; omega,
        by rw [decide_eq_true (by omega : 6 ≤ n - 1),
          decide_eq_true (by omega : n = 1 + (n - 1))]; rfl⟩
    · refine ⟨n - 14, by simp [List.mem_range]; omega, ?_⟩
      rw [decide_eq_true (by omega : 1 ≤ n - 14)]
      simp only [Bool.true_and, List.any_eq_true]
      exact ⟨14, by simp [List.mem_range],
        by rw [decide_eq_true (by omega : 6 ≤ 14),
          decide_eq_true (by omega : n = n - 14 + 14)]; rfl⟩
  · rw [decide_eq_false h, List.any_eq_false]
    intro a ha
    simp only [List.mem_range] at ha
    intro hcon
    simp only [Bool.and_eq_true, decide_eq_true_eq, List.any_eq_true,
      List.mem_range] at hcon
    obtain ⟨h1, b, hb, h6, heq⟩ := hcon
    omega

/-- **C8 (amended).** `validatePhone` accepts a `+` followed by at least 8
digits; `validatePhoneNumber` accepts a `+` followed by 7 to 17 digits.
The two validators agree on a string exactly when it is not a `+` followed
by exactly 7 digits or by 18 or more digits. -/
theorem phone_validators_agree_iff (s : String) :
    (validatePhone s = validatePhoneNumber s) ↔
      ¬ (isPlusDigits s = true ∧ (numDigits s = 7 ∨ 18 ≤ numDigits s)) := by
  unfold validatePhone validatePhoneNumber isPlusDigits numDigits
  rw [phoneNumber_range_eq]
  by_cases h1 : (s.data.head? == some '+') = true
  · by_cases h2 : s.data.tail.all Char.isDigit = true
    · simp only [h1, h2, Bool.true_and, Bool.and_true, true_and]
      rw [decide_eq_decide]
      omega
    · simp only [Bool.not_eq_true] at h2
      simp [h1, h2]
  · simp only [Bool.not_eq_true] at h1
    simp [h1]

/-! ## Pod status classes (C9) -/

/-- JS `String.prototype.toLowerCase` for the ASCII statuses the dashboard
compares (structural, so it evaluates in the kernel). -/
def jsToLowerCase (s : String) : String := String.mk (s.data.map Char.toLower)

/-- The first `getPodStatusClass` copy (script.js lines 1896–1911): a
case-insensitive switch over the lowercased status. -/
def getPodStatusClassSwitch (status : String) : String :=
  if jsToLowerCase status = "running" then "status-healthy"
  else if jsToLowerCase status = "warning" ∨ jsToLowerCase status = "pending" then
    "status-warning"
  else if jsToLowerCase status = "failed" ∨ jsToLowerCase status = "crashloopbackoff" ∨
      jsToLowerCase status = "error" then "status-error"
  else "status-unknown"

/-- The second `getPodStatusClass` copy (script.js lines 2783–2790): a
case-sensitive `statusMap` lookup with `status-unknown` as default. -/
def getPodStatusClassMap (status : String) : String :=
  if status = "Running" then "status-running"
  else if status = "Warning" then "status-warning"
  else if status = "Failed" then "status-failed"
  else "status-unknown"

/-- The severity buckets named by the claim. -/
inductive SeverityBucket
  | healthy
  | warning
  | failed
  | unknown
deriving DecidableEq, Repr

/-- Definition following the claim's wording (the spec side of the
refinement): the severity bucket named by a status CSS class —
healthy-or-running, warning, failed-or-error, unknown. -/
def severityBucket (cls : String) : SeverityBucket :=
  if cls = "status-healthy" ∨ cls = "status-running" then .healthy
  else if cls = "status-warning" then .warning
  else if cls = "status-error" ∨ cls = "status-failed" then .failed
  else .unknown

/-- **C9 (counterexample).** The two `getPodStatusClass` copies do not
compute the same severity bucket: on `"Pending"` the switch copy answers
the warning bucket while the map copy answers the unknown bucket. -/
theorem getPodStatusClass_copies_differ :
    severityBucket (getPodStatusClassSwitch "Pending") ≠
      severityBucket (getPodStatusClassMap "Pending") := by
  decide

/-- **C9 (amended).** The two copies agree on the severity bucket exactly
for the statuses `"Running"`, `"Warning"`, `"Failed"` (verbatim) and for
statuses whose lowercase form is outside the switch copy's six recognized
values; they disagree on every other status (case variants and the
pending/crashloopbackoff/error statuses, which only the switch copy
classifies). -/
theorem getPodStatusClass_copies_agree_iff (s : String) :
    severityBucket (getPodStatusClassSwitch s) =
        severityBucket (getPodStatusClassMap s) ↔
      (s = "Running" ∨ s = "Warning" ∨ s = "Failed" ∨
        (jsToLowerCase s ≠ "running" ∧ jsToLowerCase s ≠ "warning" ∧
         jsToLowerCase s ≠ "pending" ∧ jsToLowerCase s ≠ "failed" ∧
         jsToLowerCase s ≠ "crashloopbackoff" ∧ jsToLowerCase s ≠ "error")) := by
  by_cases h1 : s = "Running"
  · subst h1
    decide
  by_cases h2 : s = "Warning"
  · subst h2
    decide
  by_cases h3 : s = "Failed"
  · subst h3
    decide
  have hmap : getPodStatusClassMap s = "status-unknown" := by
    unfold getPodStatusClassMap
    rw [if_neg h1, if_neg h2, if_neg h3]
  by_cases hr : jsToLowerCase s = "running"
  · have hsw : getPodStatusClassSwitch s = "status-healthy" := by
      unfold getPodStatusClassSwitch
      rw [if_pos hr]
    rw [hsw, hmap]
    refine iff_of_false (by decide) ?_
    rintro (h | h | h | ⟨hne, _⟩)
    · exact h1 h
    · exact h2 h
    · exact h3 h
    · exact hne hr
  by_cases hw : jsToLowerCase s = "warning"
  · have hsw : getPodStatusClassSwitch s = "status-warning" := by
      unfold getPodStatusClassSwitch
      rw [if_neg hr, if_pos (Or.inl hw)]
    rw [hsw, hmap]
    refine iff_of_false (by decide) ?_
    rintro (h | h | h | ⟨_, hne, _⟩)
    · exact h1 h
    · exact h2 h
    · exact h3 h
    · exact hne hw
  by_cases hp : jsToLowerCase s = "pending"
  · have hsw : getPodStatusClassSwitch s = "status-warning" := by
      unfold getPodStatusClassSwitch
      rw [if_neg hr, if_pos (Or.inr hp)]
    rw [hsw, hmap]
    refine iff_of_false (by decide) ?_
    rintro (h | h | h | ⟨_, _, hne, _⟩)
    · exact h1 h
    · exact h2 h
    · exact h3 h
    · exact hne hp
  by_cases hf : jsToLowerCase s = "failed"
  · have hsw : getPodStatusClassSwitch s = "status-error" := by
      unfold getPodStatusClassSwitch
      rw [if_neg hr, if_neg (by rintro (h | h); exact hw h; exact hp h),
        if_pos (Or.inl hf)]
    rw [hsw, hmap]
    refine iff_of_false (by decide) ?_
    rintro (h | h | h | ⟨_, _, _, hne, _⟩)
    · exact h1 h
    · exact h2 h
    · exact h3 h
    · exact hne hf
  by_cases hc : jsToLowerCase s = "crashloopbackoff"
  · have hsw : getPodStatusClassSwitch s = "status-error" := by
      unfold getPodStatusClassSwitch
      rw [if_neg hr, if_neg (by rintro (h | h); exact hw h; exact hp h),
        if_pos (Or.inr (Or.inl hc))]
    rw [hsw, hmap]
    refine iff_of_false (by decide) ?_
    rintro (h | h | h | ⟨_, _, _, _, hne, _⟩)
    · exact h1 h
    · exact h2 h
    · exact h3 h
    · exact hne hc
  by_cases he : jsToLowerCase s = "error"
  · have hsw : getPodStatusClassSwitch s = "status-error" := by
      unfold getPodStatusClassSwitch
      rw [if_neg hr, if_neg (by rintro (h | h); exact hw h; exact hp h),
        if_pos (Or.inr (Or.inr he))]
    rw [hsw, hmap]
    refine iff_of_false (by decide) ?_
    rintro (h | h | h | ⟨_, _, _, _, _, hne⟩)
    · exact h1 h
    · exact h2 h
    · exact h3 h
    · exact hne he
  · have hsw : getPodStatusClassSwitch s = "status-unknown" := by
      unfold getPodStatusClassSwitch
      rw [if_neg hr, if_neg (by rintro (h | h); exact hw h; exact hp h),
        if_neg (by rintro (h | h | h); exact hf h; exact hc h; exact he h)]
    rw [hsw, hmap]
    exact iff_of_true rfl (Or.inr (Or.inr (Or.inr ⟨hr, hw, hp, hf, hc, he⟩)))

/-! ## Dashboard filters and counters (C10) -/

/-- JS `String.prototype.includes`: contiguous substring containment. -/
def strIncludes (hay needle : String) : Bool := decide (needle.data <:+: hay.data)

/-- The current values of the dashboard filter inputs (empty string for an
unset filter, matching the DOM's falsy empty value). -/
structure Filters where
  ns : String
  node : String
  status : String
  typ : String
  search : String
deriving DecidableEq, Repr

/-- `isNewPod` (script.js lines 1913–1918): the pod's age in whole days is
at most `config.newPodThreshold` (7 in the source); `nowMs`/`created_at`
are milliseconds since the epoch and JS `Math.floor` is floor division. -/
def isNewPod (nowMs newPodThreshold : Int) (pod : Pod) : Bool :=
  decide ((nowMs - pod.created_at).fdiv 86400000 ≤ newPodThreshold)

/-- The status branch of `applyFilters` (script.js lines 1125–1137): a
switch over the selected status filter, comparing lowercased pod status
against the filter's status set; an unrecognized filter value matches no
switch case and filters nothing. -/
def statusFilterPass (status : String) (pod : Pod) : Bool :=
  if status = "running" then jsToLowerCase pod.status == "running"
  else if status = "warning" then
    ["warning", "pending"].contains (jsToLowerCase pod.status)
  else if status = "failed" then
    ["failed", "crashloopbackoff", "error"].contains (jsToLowerCase pod.status)
  else true

/-- The type branch of `applyFilters` (script.js lines 1139–1151). -/
def typeFilterPass (typ : String) (nowMs newPodThreshold : Int) (pod : Pod) : Bool :=
  if typ = "local" then strIncludes pod.image "local/"
  else if typ = "new" then isNewPod nowMs newPodThreshold pod
  else if typ = "updated" then pod.image_updated
  else true

/-- `applyFilters` (script.js lines 1115–1156): a pod passes when every set
filter admits it; an empty filter value is falsy in the source and imposes
no constraint. -/
def applyFilters (f : Filters) (nowMs newPodThreshold : Int) (pod : Pod) : Bool :=
  (f.ns == "" || pod.ns == f.ns) &&
  (f.node == "" || pod.node == f.node) &&
  (f.status == "" || statusFilterPass f.status pod) &&
  (f.typ == "" || typeFilterPass f.typ nowMs newPodThreshold pod) &&
  (jsToLowerCase f.search == "" ||
    strIncludes (jsToLowerCase pod.name) (jsToLowerCase f.search))

/-- The pod counters maintained by `updateCounters`. -/
structure Counters where
  runningPods : Nat
  warningPods : Nat
  failedPods : Nat
deriving DecidableEq, Repr

/-- The per-pod switch of `updateCounters` (script.js lines 993–1008): the
lowercased status selects which counter, if any, is incremented. -/
def counterIncrement (pod : Pod) (c : Counters) : Counters :=
  if jsToLowerCase pod.status = "running" then
    { c with runningPods := c.runningPods + 1 }
  else if jsToLowerCase pod.status = "warning" ∨
      jsToLowerCase pod.status = "pending" then
    { c with warningPods := c.warningPods + 1 }
  else if jsToLowerCase pod.status = "failed" ∨
      jsToLowerCase pod.status = "crashloopbackoff" ∨
      jsToLowerCase pod.status = "error" then
    { c with failedPods := c.failedPods + 1 }
  else c

/-- `updateCounters`'s pod loop (script.js lines 982–1008), folding the
per-pod switch over the pod list starting from zeroed counters. -/
def updateCounters (pods : List Pod) : Counters :=
  pods.foldl (fun c p => counterIncrement p c) ⟨0, 0, 0⟩

theorem applyFilters_status_only (st : String) (nowMs newPodThreshold : Int)
    (pod : Pod) :
    applyFilters { ns := "", node := "", status := st, typ := "", search := "" }
        nowMs newPodThreshold pod =
      ((st == "") || statusFilterPass st pod) := by
  have h0 : jsToLowerCase "" = "" := rfl
  unfold applyFilters
  simp [h0]

/-- **C10.** The dashboard's status filter and its status counters use the
same partition of pod statuses: with only the status filter set, a pod
passes `applyFilters` with filter `running` / `warning` / `failed` exactly
when `updateCounters`'s switch increments the corresponding counter for
that pod. -/
theorem applyFilters_counterIncrement_consistent (pod : Pod)
    (nowMs newPodThreshold : Int) (c : Counters) :
    (applyFilters { ns := "", node := "", status := "running", typ := "", search := "" }
          nowMs newPodThreshold pod = true ↔
        (counterIncrement pod c).runningPods = c.runningPods + 1) ∧
    (applyFilters { ns := "", node := "", status := "warning", typ := "", search := "" }
          nowMs newPodThreshold pod = true ↔
        (counterIncrement pod c).warningPods = c.warningPods + 1) ∧
    (applyFilters { ns := "", node := "", status := "failed", typ := "", search := "" }
          nowMs newPodThreshold pod = true ↔
        (counterIncrement pod c).failedPods = c.failedPods + 1) := by
  rw [applyFilters_status_only, applyFilters_status_only, applyFilters_status_only]
  by_cases hr : jsToLowerCase pod.status = "running"
  · refine ⟨?_, ?_, ?_⟩ <;>
      simp [statusFilterPass, counterIncrement, hr]
  by_cases hw : jsToLowerCase pod.status = "warning"
  · refine ⟨?_, ?_, ?_⟩ <;>
      simp [statusFilterPass, counterIncrement, hr, hw]
  by_cases hp : jsToLowerCase pod.status = "pending"
  · refine ⟨?_, ?_, ?_⟩ <;>
      simp [statusFilterPass, counterIncrement, hr, hw, hp]
  by_cases hf : jsToLowerCase pod.status = "failed"
  · refine ⟨?_, ?_, ?_⟩ <;>
      simp [statusFilterPass, counterIncrement, hr, hw, hp, hf]
  by_cases hc : jsToLowerCase pod.status = "crashloopbackoff"
  · refine ⟨?_, ?_, ?_⟩ <;>
      simp [statusFilterPass, counterIncrement, hr, hw, hp, hc, hf]
  by_cases he : jsToLowerCase pod.status = "error"
  · refine ⟨?_, ?_, ?_⟩ <;>
      simp [statusFilterPass, counterIncrement, hr, hw, hp, hf, hc, he]
  · refine ⟨?_, ?_, ?_⟩ <;>
      simp [statusFilterPass, counterIncrement, hr, hw, hp, hf, hc, he]

end Podmon
